import Mathlib

/-!
# CASAActuator configuration header

Shallow embedding of `src/CASAActuator/CASAActuator.h`: the command codes, the
command tags, the press threshold, the pin table and the three mutable
globals (`time`, `enabled`, `buttonPressed`).  `const int` values are carried
as mathematical integers; the storage width of the target is made explicit by
`toInt16` and by the width parameter of `recordButtonPress`.
-/

namespace CASAActuator

/-! ## Command codes (header lines 9-13) -/

/-- Source: `const int COMMAND_EMPTY = 0;` -/
def COMMAND_EMPTY : Int := 0
/-- Source: `const int COMMAND_ENABLE = 99;` -/
def COMMAND_ENABLE : Int := 99
/-- Source: `const int COMMAND_CHECK = 98;` -/
def COMMAND_CHECK : Int := 98
/-- Source: `const int COMMAND_GENERIC_IR = 3;` -/
def COMMAND_GENERIC_IR : Int := 3
/-- Source: `const int COMMAND_GENERIC_RELAY = 4;` -/
def COMMAND_GENERIC_RELAY : Int := 4

/-! ## Command tags (header lines 15-17) -/

/-- Source: `const String GENERIC_IR = "IR";` -/
def GENERIC_IR : String := "IR"
/-- Source: `const String GENERIC_RELAY = "RL";` -/
def GENERIC_RELAY : String := "RL"

/-! ## Press threshold (header line 19) -/

/-- Source: `const int BUTTON_PRESSED_TIME = 3000;` -/
def BUTTON_PRESSED_TIME : Int := 3000

/-! ## Pin definitions (header lines 22-35) -/

/-- Source: `const int PIN_RELAY_1 = 35;` -/
def PIN_RELAY_1 : Int := 35
/-- Source: `const int PIN_RELAY_2 = 36;` -/
def PIN_RELAY_2 : Int := 36
/-- Source: `const int PIN_RELAY_3 = 37;` -/
def PIN_RELAY_3 : Int := 37
/-- Source: `const int PIN_RELAY_4 = 38;` -/
def PIN_RELAY_4 : Int := 38
/-- Source: `const int PIN_RELAY_5 = 39;` -/
def PIN_RELAY_5 : Int := 39
/-- Source: `const int PIN_RELAY_6 = 40;` -/
def PIN_RELAY_6 : Int := 40
/-- Source: `const int PIN_RELAY_7 = 41;` -/
def PIN_RELAY_7 : Int := 41
/-- Source: `const int PIN_RELAY_8 = 42;` -/
def PIN_RELAY_8 : Int := 42

/-- Source: `const int RELAY_ARRAY[] = {PIN_RELAY_1, ..., PIN_RELAY_8};`
the array read as a list, entries in declaration order. -/
def RELAY_ARRAY : List Int :=
  [PIN_RELAY_1, PIN_RELAY_2, PIN_RELAY_3, PIN_RELAY_4,
   PIN_RELAY_5, PIN_RELAY_6, PIN_RELAY_7, PIN_RELAY_8]

/-- Source: `const int PIN_ENABLED_INDICATOR = 28;` -/
def PIN_ENABLED_INDICATOR : Int := 28
/-- Source: `const int PIN_GLOBAL_SWITCH = 52;` -/
def PIN_GLOBAL_SWITCH : Int := 52
/-- Source: `const int PIN_GLOBAL_SWITCH_LED = 53;` -/
def PIN_GLOBAL_SWITCH_LED : Int := 53
/-- Source: `const int PIN_SWITCH_BUTTON = 2;` -/
def PIN_SWITCH_BUTTON : Int := 2
/-- Source: `const int PIN_IR_RECV = 6;` -/
def PIN_IR_RECV : Int := 6

/-! ## Collections of the declarations above -/

/-- The five command codes, in declaration order. -/
def commandCodes : List Int :=
  [COMMAND_EMPTY, COMMAND_ENABLE, COMMAND_CHECK, COMMAND_GENERIC_IR, COMMAND_GENERIC_RELAY]

/-- The thirteen `PIN_*` constants, in declaration order. -/
def pinAssignments : List Int :=
  [PIN_RELAY_1, PIN_RELAY_2, PIN_RELAY_3, PIN_RELAY_4,
   PIN_RELAY_5, PIN_RELAY_6, PIN_RELAY_7, PIN_RELAY_8,
   PIN_ENABLED_INDICATOR, PIN_GLOBAL_SWITCH, PIN_GLOBAL_SWITCH_LED,
   PIN_SWITCH_BUTTON, PIN_IR_RECV]

/-- Every value the header declares as `const int`: the command codes, the
press threshold, the pin constants and the entries of `RELAY_ARRAY`. -/
def constIntValues : List Int :=
  commandCodes ++ [BUTTON_PRESSED_TIME] ++ pinAssignments ++ RELAY_ARRAY

/-- Storage of an integer in a 16-bit two's-complement `int` (the AVR width):
the value is reduced modulo `2^16` into the range `-32768 .. 32767`. -/
def toInt16 (v : Int) : Int :=
  (v + 32768) % 65536 - 32768

/-! ## Mutable globals (header lines 5-7) -/

/-- The three process-wide variables of the header.
`unsigned long time;`, `boolean enabled = true;`,
`unsigned long buttonPressed = 0;` -/
structure Globals where
  time : Nat
  enabled : Bool
  buttonPressed : Nat
  deriving DecidableEq

/-- State after static initialisation: `time` has no initialiser and is
zero-initialised, `enabled = true`, `buttonPressed = 0`. -/
def initialGlobals : Globals :=
  { time := 0, enabled := true, buttonPressed := 0 }

/-! ## Accessors of the configuration table -/

/-- Modelled from the spec: the header declares no function; `relayOutputs()`
is the spec's accessor returning the ordered sequence of the 8 relay outputs,
which is `RELAY_ARRAY`. -/
def relayOutputs : List Int := RELAY_ARRAY

/-- Modelled from the spec: the bounds-checked lookup of the design notes
("immutable, bounds-checked fixed-length sequence"), absent from the header,
whose array is indexed raw.  The index is a signed integer as in the source
language; a negative or too large index yields no value. -/
def relayOutputAt (i : Int) : Option Int :=
  if 0 ≤ i then relayOutputs.get? i.toNat else none

/-- Modelled from the spec: `commandCodeFor(tag)`, absent from the header,
pairs the tag `GENERIC_IR` with `COMMAND_GENERIC_IR` and the tag
`GENERIC_RELAY` with `COMMAND_GENERIC_RELAY`; any other tag is outside the
table and is reported as an unknown tag (`none`). -/
def commandCodeFor (tag : String) : Option Int :=
  if tag = GENERIC_IR then some COMMAND_GENERIC_IR
  else if tag = GENERIC_RELAY then some COMMAND_GENERIC_RELAY
  else none

/-- Modelled from the spec: `pressThresholdMillis()`, absent from the header,
returns the constant `BUTTON_PRESSED_TIME`; it is given the globals to make
explicit that it reads none of them. -/
def pressThresholdMillis (_g : Globals) : Int := BUTTON_PRESSED_TIME

/-- Modelled from the spec: `isEnabled()`, absent from the header, reads the
global `enabled`. -/
def isEnabled (g : Globals) : Bool := g.enabled

/-- Modelled from the spec: `setEnabled(bool)`, absent from the header,
assigns the global `enabled` and leaves the other globals alone. -/
def setEnabled (b : Bool) (g : Globals) : Globals :=
  { g with enabled := b }

/-- Modelled from the spec: `lastButtonPress()`, absent from the header, reads
the global `buttonPressed`. -/
def lastButtonPress (g : Globals) : Nat := g.buttonPressed

/-- Modelled from the spec: `recordButtonPress(timestamp)`, absent from the
header, assigns the global `buttonPressed`.  The field is an `unsigned long`
of `w` bits (32 on the AVR target), so the stored value is the argument
reduced modulo `2^w`. -/
def recordButtonPress (w : Nat) (t : Nat) (g : Globals) : Globals :=
  { g with buttonPressed := t % 2 ^ w }

/-! ## Theorems -/

/-- C1: `RELAY_ARRAY`, read as a list, is exactly `[35, 36, 37, 38, 39, 40, 41, 42]`;
it has length 8 and its entries are pairwise distinct. -/
theorem relay_array_exact :
    RELAY_ARRAY = [35, 36, 37, 38, 39, 40, 41, 42]
      ∧ RELAY_ARRAY.length = 8
      ∧ RELAY_ARRAY.Nodup := by
  refine ⟨rfl, rfl, ?_⟩
  decide

/-- C2: the tag-to-code mapping returns 3 for the tag "IR" and 4 for the tag
"RL", these tags being the constants `GENERIC_IR` and `GENERIC_RELAY` and the
codes the constants `COMMAND_GENERIC_IR` and `COMMAND_GENERIC_RELAY`. -/
theorem commandCodeFor_tags :
    commandCodeFor "IR" = some 3
      ∧ commandCodeFor "RL" = some 4
      ∧ commandCodeFor GENERIC_IR = some COMMAND_GENERIC_IR
      ∧ commandCodeFor GENERIC_RELAY = some COMMAND_GENERIC_RELAY := by
  refine ⟨?_, ?_, ?_, ?_⟩ <;> decide

/-- C3: the five command codes have the values 0, 99, 98, 3 and 4, and these
values are pairwise distinct. -/
theorem command_codes_values_distinct :
    COMMAND_EMPTY = 0
      ∧ COMMAND_ENABLE = 99
      ∧ COMMAND_CHECK = 98
      ∧ COMMAND_GENERIC_IR = 3
      ∧ COMMAND_GENERIC_RELAY = 4
      ∧ commandCodes.Nodup
      ∧ List.Pairwise (fun a b => a ≠ b)
          [COMMAND_EMPTY, COMMAND_ENABLE, COMMAND_CHECK,
           COMMAND_GENERIC_IR, COMMAND_GENERIC_RELAY] := by
  refine ⟨rfl, rfl, rfl, rfl, rfl, ?_, ?_⟩ <;> decide

/-- C4: the bounds-checked lookup of position `i` in the relay output sequence
succeeds exactly when `0 ≤ i ≤ 7`; it then yields `35 + i`, the pin of relay
`i + 1`; for every `i ≥ 8` (and every negative `i`) it yields no value. -/
theorem relayOutputAt_bounds (i : Int) :
    ((relayOutputAt i).isSome = true ↔ (0 ≤ i ∧ i ≤ 7))
      ∧ (relayOutputAt i = if 0 ≤ i ∧ i ≤ 7 then some (35 + i) else none)
      ∧ (8 ≤ i → relayOutputAt i = none)
      ∧ (i < 0 → relayOutputAt i = none)
      ∧ [relayOutputAt 0, relayOutputAt 1, relayOutputAt 2, relayOutputAt 3,
         relayOutputAt 4, relayOutputAt 5, relayOutputAt 6, relayOutputAt 7]
        = [some PIN_RELAY_1, some PIN_RELAY_2, some PIN_RELAY_3, some PIN_RELAY_4,
           some PIN_RELAY_5, some PIN_RELAY_6, some PIN_RELAY_7, some PIN_RELAY_8] := by
  have key : relayOutputAt i = if 0 ≤ i ∧ i ≤ 7 then some (35 + i) else none := by
    rcases lt_or_le i 0 with hneg | hpos
    · have h1 : ¬ (0 ≤ i) := not_le.mpr hneg
      have h2 : ¬ (0 ≤ i ∧ i ≤ 7) := fun h => h1 h.1
      rw [if_neg h2]
      unfold relayOutputAt
      rw [if_neg h1]
    · obtain ⟨n, rfl⟩ := Int.eq_ofNat_of_zero_le hpos
      rcases Nat.lt_or_ge n 8 with hn | hn
      · interval_cases n <;> decide
      · have h2 : ¬ ((0 : Int) ≤ (n : Int) ∧ (n : Int) ≤ 7) := by omega
        rw [if_neg h2]
        unfold relayOutputAt
        rw [if_pos hpos, Int.toNat_ofNat]
        exact List.get?_eq_none.mpr hn
  refine ⟨?_, key, ?_, ?_, by decide⟩
  · rw [key]
    by_cases h : 0 ≤ i ∧ i ≤ 7
    · simp [h]
    · simp [h]
  · intro h8
    rw [key, if_neg (by omega)]
  · intro hneg
    rw [key, if_neg (by omega)]

/-- Instance of C4 at the indices 3 (in range) and 8, -1 (out of range). -/
theorem relayOutputAt_bounds_witness :
    relayOutputAt 3 = some 38 ∧ relayOutputAt 8 = none ∧ relayOutputAt (-1) = none :=
  ⟨(relayOutputAt_bounds 3).2.1.trans (by decide),
   (relayOutputAt_bounds 8).2.2.1 (by decide),
   (relayOutputAt_bounds (-1)).2.2.2.1 (by decide)⟩

/-- C5: the press threshold `BUTTON_PRESSED_TIME` is 3000, and the accessor
`pressThresholdMillis` returns 3000 whatever the values of the globals
`time`, `enabled` and `buttonPressed`. -/
theorem pressThresholdMillis_const (g : Globals) :
    BUTTON_PRESSED_TIME = 3000 ∧ pressThresholdMillis g = 3000 :=
  ⟨rfl, rfl⟩

/-- C6: the enabled flag is true in the initial state, and from any state
writing false to it and then reading it yields false. -/
theorem enabled_initial_and_roundtrip :
    initialGlobals.enabled = true
      ∧ isEnabled initialGlobals = true
      ∧ ∀ g : Globals, isEnabled (setEnabled false g) = false :=
  ⟨rfl, rfl, fun _ => rfl⟩

/-- C7: for every timestamp `t` representable in the `w`-bit `unsigned long`
field `buttonPressed` and every prior state, recording `t` and then reading
the last button press returns exactly `t`. -/
theorem buttonPress_roundtrip (w t : Nat) (g : Globals) (h : t < 2 ^ w) :
    lastButtonPress (recordButtonPress w t g) = t := by
  unfold lastButtonPress recordButtonPress
  exact Nat.mod_eq_of_lt h

/-- Instance of C7 at the largest 32-bit timestamp, from the initial state. -/
theorem buttonPress_roundtrip_witness :
    4294967295 < 2 ^ 32
      ∧ lastButtonPress (recordButtonPress 32 4294967295 initialGlobals) = 4294967295 :=
  ⟨by decide, buttonPress_roundtrip 32 4294967295 initialGlobals (by decide)⟩

/-- C8: the 13 physical pin assignments of the header are pairwise distinct. -/
theorem pin_assignments_distinct :
    pinAssignments.length = 13 ∧ pinAssignments.Nodup := by
  refine ⟨rfl, ?_⟩
  decide

/-- C9: every value declared as `const int` in the header lies in `0 .. 32767`,
so it is unchanged modulo `2^16` and by storage in a 16-bit signed `int`. -/
theorem const_int_values_fit_int16 (v : Int) (h : v ∈ constIntValues) :
    0 ≤ v ∧ v ≤ 32767 ∧ v % 2 ^ 16 = v ∧ toInt16 v = v := by
  revert v
  decide

/-- Instance of C9 at the largest declared value, `BUTTON_PRESSED_TIME`. -/
theorem const_int_values_fit_int16_witness :
    BUTTON_PRESSED_TIME ∈ constIntValues
      ∧ (0 ≤ BUTTON_PRESSED_TIME ∧ BUTTON_PRESSED_TIME ≤ 32767
          ∧ BUTTON_PRESSED_TIME % 2 ^ 16 = BUTTON_PRESSED_TIME
          ∧ toInt16 BUTTON_PRESSED_TIME = BUTTON_PRESSED_TIME) :=
  ⟨by decide, const_int_values_fit_int16 BUTTON_PRESSED_TIME (by decide)⟩

/-- C10: the two tag strings differ and the two generic codes differ, so the
tag-to-code pairing is injective on its two-element domain: a tag has a code
exactly when it is one of the two tags, two tags with the same code are the
same tag, and the codes reached are exactly the two generic codes. -/
theorem tag_code_pairing_injective :
    GENERIC_IR ≠ GENERIC_RELAY
      ∧ COMMAND_GENERIC_IR ≠ COMMAND_GENERIC_RELAY
      ∧ commandCodeFor GENERIC_IR ≠ commandCodeFor GENERIC_RELAY
      ∧ (∀ t : String, (commandCodeFor t).isSome = true ↔ (t = GENERIC_IR ∨ t = GENERIC_RELAY))
      ∧ (∀ (t₁ t₂ : String) (c : Int),
          commandCodeFor t₁ = some c → commandCodeFor t₂ = some c → t₁ = t₂)
      ∧ (∀ c : Int, (∃ t : String, commandCodeFor t = some c)
          ↔ (c = COMMAND_GENERIC_IR ∨ c = COMMAND_GENERIC_RELAY)) := by
  have hcode : COMMAND_GENERIC_IR ≠ COMMAND_GENERIC_RELAY := by decide
  have hsplit : ∀ t : String,
      (t = GENERIC_IR ∧ commandCodeFor t = some COMMAND_GENERIC_IR)
        ∨ (t = GENERIC_RELAY ∧ commandCodeFor t = some COMMAND_GENERIC_RELAY)
        ∨ (t ≠ GENERIC_IR ∧ t ≠ GENERIC_RELAY ∧ commandCodeFor t = none) := by
    intro t
    unfold commandCodeFor
    by_cases h1 : t = GENERIC_IR
    · left; exact ⟨h1, if_pos h1⟩
    · by_cases h2 : t = GENERIC_RELAY
      · right; left; exact ⟨h2, by rw [if_neg h1, if_pos h2]⟩
      · right; right; exact ⟨h1, h2, by rw [if_neg h1, if_neg h2]⟩
  refine ⟨by decide, hcode, by decide, ?_, ?_, ?_⟩
  · intro t
    rcases hsplit t with ⟨ht, hc⟩ | ⟨ht, hc⟩ | ⟨h1, h2, hc⟩
    · exact ⟨fun _ => Or.inl ht, fun _ => by rw [hc]; rfl⟩
    · exact ⟨fun _ => Or.inr ht, fun _ => by rw [hc]; rfl⟩
    · rw [hc]
      exact ⟨fun h => absurd h (by decide), fun h => h.elim (absurd · h1) (absurd · h2)⟩
  · intro t₁ t₂ c e₁ e₂
    rcases hsplit t₁ with ⟨ht₁, hc₁⟩ | ⟨ht₁, hc₁⟩ | ⟨_, _, hc₁⟩ <;>
      rcases hsplit t₂ with ⟨ht₂, hc₂⟩ | ⟨ht₂, hc₂⟩ | ⟨_, _, hc₂⟩ <;>
      rw [hc₁] at e₁ <;> rw [hc₂] at e₂
    · rw [ht₁, ht₂]
    · exact absurd ((Option.some.inj e₁).trans (Option.some.inj e₂).symm) hcode
    · exact absurd e₂ (by simp)
    · exact absurd ((Option.some.inj e₂).trans (Option.some.inj e₁).symm) hcode
    · rw [ht₁, ht₂]
    · exact absurd e₂ (by simp)
    · exact absurd e₁ (by simp)
    · exact absurd e₁ (by simp)
    · exact absurd e₁ (by simp)
  · intro c
    constructor
    · rintro ⟨t, ht⟩
      rcases hsplit t with ⟨_, hc⟩ | ⟨_, hc⟩ | ⟨_, _, hc⟩ <;> rw [hc] at ht
      · exact Or.inl (Option.some.inj ht).symm
      · exact Or.inr (Option.some.inj ht).symm
      · exact absurd ht (by simp)
    · rintro (hc | hc)
      · exact ⟨GENERIC_IR, by rw [hc]; decide⟩
      · exact ⟨GENERIC_RELAY, by rw [hc]; decide⟩

/-- Instance of C10: "IR" and "RL" both have a code, and a tag sharing the
code of "IR" is "IR". -/
theorem tag_code_pairing_injective_witness :
    commandCodeFor "IR" = some 3 ∧ commandCodeFor GENERIC_IR = some 3
      ∧ ("IR" : String) = GENERIC_IR :=
  ⟨by decide, by decide,
   tag_code_pairing_injective.2.2.2.2.1 "IR" GENERIC_IR 3 (by decide) (by decide)⟩

end CASAActuator
